import Mathlib

set_option autoImplicit false

namespace TelecomCart

/-!
Shallow embedding of the telecom cart experience API core:
the pricing strategy (`StandardPricingStrategy.calculatePricing`),
the TTL session store (`SalesforceCartClientMock`) and the cart
engine (`CartService`).  JavaScript numbers are modelled as exact
rationals, `Date` timestamps as rationals holding epoch milliseconds.
-/

/-- Models the TypeScript idiom `Math.round(x * 100) / 100` in exact
rational arithmetic.  JavaScript `Math.round y` rounds half toward
positive infinity, i.e. it equals `⌊y + 1/2⌋`. -/
def round2 (x : ℚ) : ℚ := (⌊100 * x + 1/2⌋ : ℚ) / 100

/-- `Product.category` enum from `src/domain/models.ts`:
`'plan' | 'device' | 'addon' | 'accessory'`. -/
inductive Category where
  | plan
  | device
  | addon
  | accessory
deriving DecidableEq, Repr

/-- `Product` from `src/domain/models.ts`. -/
structure Product where
  productId : String
  name : String
  price : ℚ
  category : Category
deriving DecidableEq, Repr

/-- `CartItem` from `src/domain/models.ts`. -/
structure CartItem where
  itemId : String
  product : Product
  quantity : ℚ
  unitPrice : ℚ
  totalPrice : ℚ
  addedAt : ℚ
deriving DecidableEq, Repr

/-- `Cart` from `src/domain/models.ts`; `metadata` is an opaque
key-value bag, irrelevant to all operations, modelled as string pairs. -/
structure Cart where
  cartId : String
  items : List CartItem
  subtotal : ℚ
  tax : ℚ
  total : ℚ
  createdAt : ℚ
  updatedAt : ℚ
  expiresAt : ℚ
  metadata : Option (List (String × String)) := none
deriving DecidableEq, Repr

/-- `AddItemRequest` from `src/domain/models.ts`. -/
structure AddItemRequest where
  product : Product
  quantity : ℚ
deriving DecidableEq, Repr

/-- `StandardPricingStrategy.TAX_RATE = 0.09`. -/
def TAX_RATE : ℚ := 9 / 100

/-- The raw (unrounded) reduce over `item.totalPrice` in
`StandardPricingStrategy.calculatePricing`:
`cart.items.reduce((sum, item) => sum + item.totalPrice, 0)`. -/
def rawSubtotal (cart : Cart) : ℚ :=
  cart.items.foldl (fun sum item => sum + item.totalPrice) 0

/-- `StandardPricingStrategy.calculatePricing` from
`src/domain/strategies/IPricingStrategy.ts`.  The current time is an
explicit parameter (`new Date()` in the source). -/
def calculatePricing (now : ℚ) (cart : Cart) : Cart :=
  let subtotal := rawSubtotal cart
  let tax := round2 (subtotal * TAX_RATE)
  let total := round2 (subtotal + tax)
  { cart with
      subtotal := round2 subtotal
      tax := tax
      total := total
      updatedAt := now }

/-! ### Arithmetic facts about `round2` -/

theorem round2_zero : round2 0 = 0 := by
  norm_num [round2]

/-- `round2` is the identity on exact multiples of a cent. -/
theorem round2_cent (n : ℤ) : round2 ((n : ℚ) / 100) = (n : ℚ) / 100 := by
  unfold round2
  rw [show (100 : ℚ) * ((n : ℚ) / 100) = (n : ℚ) by ring, Int.floor_int_add]
  norm_num

/-- Adding an exact multiple of a cent commutes with `round2`. -/
theorem round2_add_cent (x : ℚ) (n : ℤ) :
    round2 (x + (n : ℚ) / 100) = round2 x + (n : ℚ) / 100 := by
  unfold round2
  rw [show (100 : ℚ) * (x + (n : ℚ) / 100) + 1/2 = (100 * x + 1/2) + (n : ℚ) by ring,
    Int.floor_add_int]
  push_cast
  ring

/-- Every value of `round2` is an exact multiple of a cent. -/
theorem round2_exists_cent (x : ℚ) : ∃ n : ℤ, round2 x = (n : ℚ) / 100 :=
  ⟨⌊100 * x + 1/2⌋, rfl⟩

/-- The final stage of the pricing strategy rounds the raw subtotal plus
the rounded tax; this equals rounding the rounded subtotal plus the
rounded tax, because `round2` absorbs cent-grid summands. -/
theorem round2_raw_add_eq_round2_rounded_add (S t : ℚ) (ht : ∃ n : ℤ, t = (n : ℚ) / 100) :
    round2 (S + t) = round2 (round2 S + t) := by
  obtain ⟨m, hm⟩ := ht
  obtain ⟨n, hn⟩ := round2_exists_cent S
  rw [hm, round2_add_cent, hn]
  rw [show (n : ℚ) / 100 + (m : ℚ) / 100 = ((n + m : ℤ) : ℚ) / 100 by push_cast; ring,
    round2_cent]

/-! ### Domain errors (`src/domain/errors/index.ts`) -/

/-- The domain error classes: `CartExpiredError` (410), `ResourceNotFoundError`
(404) and `ValidationError` (400). `ConflictError` is never raised by the core. -/
inductive DomainError where
  | cartExpired (cartId : String)
  | resourceNotFound (resource identifier : String)
  | validation (message : String)
deriving DecidableEq, Repr

/-- True exactly when an operation result is a `ValidationError`. -/
def isValidation {α : Type} : Except DomainError α → Bool
  | .error (.validation _) => true
  | _ => false

/-! ### Session store (`SalesforceCartClientMock`) -/

/-- `CartEntry` from `SalesforceCartClientMock`: the stored cart together
with the expiration anchor recorded at `createCart` time. -/
structure CartEntry where
  cart : Cart
  createdAt : ℚ
deriving DecidableEq, Repr

/-- The mock store state: the `Map<string, CartEntry>` (as an association
list) plus the configured `ttlMinutes`. -/
structure MockStore where
  carts : List (String × CartEntry)
  ttlMinutes : ℚ
deriving DecidableEq, Repr

/-- `Map.prototype.get`. -/
def mapGet (m : List (String × CartEntry)) (k : String) : Option CartEntry :=
  (m.find? (fun p => p.1 = k)).map Prod.snd

/-- `Map.prototype.set`: replaces the binding of an existing key in place
(keys of a JavaScript `Map` are unique), otherwise appends the new
binding. -/
def mapSet (m : List (String × CartEntry)) (k : String) (v : CartEntry) :
    List (String × CartEntry) :=
  match m with
  | [] => [(k, v)]
  | a :: t => if a.1 = k then (k, v) :: t else a :: mapSet t k v

/-- `Map.prototype.delete`. -/
def mapDelete (m : List (String × CartEntry)) (k : String) :
    List (String × CartEntry) :=
  m.filter (fun p => ¬ p.1 = k)

/-- `SalesforceCartClientMock.isExpired`: strict comparison
`now > entry.createdAt + ttlMinutes * 60 * 1000`. -/
def isExpired (ttlMinutes : ℚ) (now : ℚ) (entry : CartEntry) : Bool :=
  now > entry.createdAt + ttlMinutes * 60 * 1000

/-- `SalesforceCartClientMock.createCart`: stores an entry whose expiration
anchor is the CART's own `createdAt`, not the insertion time. -/
def mockCreateCart (s : MockStore) (cart : Cart) : Cart × MockStore :=
  (cart, { s with carts := mapSet s.carts cart.cartId ⟨cart, cart.createdAt⟩ })

/-- `SalesforceCartClientMock.getCart`: `none` result models the `null`
return, the error models the thrown `CartExpiredError`, which also evicts
the entry before the throw. -/
def mockGetCart (s : MockStore) (now : ℚ) (cartId : String) :
    Except DomainError (Option Cart) × MockStore :=
  match mapGet s.carts cartId with
  | none => (.ok none, s)
  | some entry =>
    if isExpired s.ttlMinutes now entry then
      (.error (.cartExpired cartId), { s with carts := mapDelete s.carts cartId })
    else
      (.ok (some entry.cart), s)

/-- `SalesforceCartClientMock.updateCart`: fails `ResourceNotFoundError` on a
missing key, evicts and fails `CartExpiredError` on an expired entry, and
otherwise overwrites `entry.cart` in place, keeping `entry.createdAt`. -/
def mockUpdateCart (s : MockStore) (now : ℚ) (cart : Cart) :
    Except DomainError Cart × MockStore :=
  match mapGet s.carts cart.cartId with
  | none => (.error (.resourceNotFound "Cart" cart.cartId), s)
  | some entry =>
    if isExpired s.ttlMinutes now entry then
      (.error (.cartExpired cart.cartId), { s with carts := mapDelete s.carts cart.cartId })
    else
      (.ok cart, { s with carts := mapSet s.carts cart.cartId ⟨cart, entry.createdAt⟩ })

/-- `SalesforceCartClientMock.deleteCart`: unconditional `Map.delete`. -/
def mockDeleteCart (s : MockStore) (cartId : String) : MockStore :=
  { s with carts := mapDelete s.carts cartId }

/-! ### Cart engine (`CartService`) -/

/-- The `CartService` constructor config with its defaults
(`cartTtlMinutes ?? 5`, `maxQuantity ?? 99`, `minQuantity ?? 1`). -/
structure ServiceConfig where
  ttlMinutes : ℚ := 5
  maxQty : ℚ := 99
  minQty : ℚ := 1
deriving DecidableEq, Repr

def isHexDigit (c : Char) : Bool :=
  (decide (Char.ofNat 48 ≤ c) && decide (c ≤ Char.ofNat 57)) ||
  (decide (Char.ofNat 97 ≤ c) && decide (c ≤ Char.ofNat 102)) ||
  (decide (Char.ofNat 65 ≤ c) && decide (c ≤ Char.ofNat 70))

/-- Character class at position `i` of the v4-UUID regex
`[0-9a-f]{8}-[0-9a-f]{4}-4[0-9a-f]{3}-[89ab][0-9a-f]{3}-[0-9a-f]{12}`
(case-insensitive). -/
def uuidCharOk (i : Nat) (c : Char) : Bool :=
  if i = 8 || i = 13 || i = 18 || i = 23 then c = Char.ofNat 45
  else if i = 14 then c = Char.ofNat 52
  else if i = 19 then
    c = Char.ofNat 56 || c = Char.ofNat 57 || c = Char.ofNat 97 || c = Char.ofNat 98 ||
    c = Char.ofNat 65 || c = Char.ofNat 66
  else isHexDigit c

/-- `CartService.validateCartId`: the anchored v4-UUID regex test. -/
def validCartId (s : String) : Bool :=
  s.toList.length = 36 && (s.toList.enum.all fun p => uuidCharOk p.1 p.2)

/-- `q.den = 1` models `Number.isInteger`. -/
def isIntegerQ (q : ℚ) : Bool := q.den = 1

/-- `CartService.validateQuantity`. -/
def validateQuantity (cfg : ServiceConfig) (q : ℚ) : Except DomainError Unit :=
  if ¬ isIntegerQ q then
    .error (.validation "Quantity must be an integer.")
  else if q < cfg.minQty || q > cfg.maxQty then
    .error (.validation "Quantity out of bounds.")
  else
    .ok ()

/-- `CartService.validateProduct`.  With `category` embedded as the enum, the
`validCats.includes` check always passes; the remaining checks are modelled. -/
def validateProduct (p : Product) : Except DomainError Unit :=
  if p.productId = "" then .error (.validation "Product ID is required.")
  else if p.name = "" then .error (.validation "Product name is required.")
  else if p.price < 0 then .error (.validation "Product price must be a positive number.")
  else .ok ()

/-- `CartService.getCart`: validate the id, read the store, map `null` to
`ResourceNotFoundError`. -/
def svcGetCart (s : MockStore) (now : ℚ) (cartId : String) :
    Except DomainError Cart × MockStore :=
  if validCartId cartId then
    match mockGetCart s now cartId with
    | (.ok none, s2) => (.error (.resourceNotFound "Cart" cartId), s2)
    | (.ok (some c), s2) => (.ok c, s2)
    | (.error e, s2) => (.error e, s2)
  else
    (.error (.validation "Invalid cart ID format. Expected UUID v4."), s)

/-- `CartService.createCart`; the generated `uuidv4()` id is an explicit
parameter. -/
def svcCreateCart (cfg : ServiceConfig) (s : MockStore) (now : ℚ) (newId : String)
    (metadata : Option (List (String × String))) : Cart × MockStore :=
  let cart : Cart :=
    { cartId := newId
      items := []
      subtotal := 0
      tax := 0
      total := 0
      createdAt := now
      updatedAt := now
      expiresAt := now + cfg.ttlMinutes * 60 * 1000
      metadata := metadata }
  mockCreateCart s cart

/-- Models the in-place mutation of the element returned by
`Array.prototype.findIndex` / `Array.prototype.find`: the first element
satisfying `p` is replaced by its image under `f`. -/
def updateFirstMatch (p : CartItem → Bool) (f : CartItem → CartItem) :
    List CartItem → List CartItem
  | [] => []
  | item :: rest =>
    if p item then f item :: rest else item :: updateFirstMatch p f rest

/-- The merge arm of `CartService.addItem`: the first item for the same
product id gets `quantity += request.quantity` and
`totalPrice = round2(unitPrice * newQuantity)`, in place. -/
def mergeItems (req : AddItemRequest) (items : List CartItem) : List CartItem :=
  updateFirstMatch (fun it => it.product.productId = req.product.productId)
    (fun it => { it with
      quantity := it.quantity + req.quantity
      totalPrice := round2 (it.unitPrice * (it.quantity + req.quantity)) })
    items

/-- The new line item pushed by `CartService.addItem` when no item
references the product yet: `unitPrice` snapshots the product price. -/
def newCartItem (freshItemId : String) (now : ℚ) (req : AddItemRequest) : CartItem :=
  { itemId := freshItemId
    product := req.product
    quantity := req.quantity
    unitPrice := req.product.price
    totalPrice := round2 (req.product.price * req.quantity)
    addedAt := now }

/-- `CartService.addItem`; the generated `uuidv4()` item id and the current
time are explicit parameters. -/
def svcAddItem (cfg : ServiceConfig) (s : MockStore) (now : ℚ) (freshItemId : String)
    (cartId : String) (req : AddItemRequest) : Except DomainError Cart × MockStore :=
  if validCartId cartId then
    match validateQuantity cfg req.quantity with
    | .error e => (.error e, s)
    | .ok _ =>
      match validateProduct req.product with
      | .error e => (.error e, s)
      | .ok _ =>
        match svcGetCart s now cartId with
        | (.error e, s2) => (.error e, s2)
        | (.ok cart, s2) =>
          match cart.items.find? (fun item => item.product.productId = req.product.productId) with
          | some item =>
            if item.quantity + req.quantity > cfg.maxQty then
              (.error (.validation "Total quantity for product would exceed maximum."), s2)
            else
              mockUpdateCart s2 now
                (calculatePricing now { cart with items := mergeItems req cart.items })
          | none =>
            mockUpdateCart s2 now
              (calculatePricing now
                { cart with items := cart.items ++ [newCartItem freshItemId now req] })
  else
    (.error (.validation "Invalid cart ID format. Expected UUID v4."), s)

/-- `CartService.removeItem`. -/
def svcRemoveItem (s : MockStore) (now : ℚ) (cartId itemId : String) :
    Except DomainError Cart × MockStore :=
  if validCartId cartId then
    match svcGetCart s now cartId with
    | (.error e, s2) => (.error e, s2)
    | (.ok cart, s2) =>
      match cart.items.findIdx? (fun item => item.itemId = itemId) with
      | none => (.error (.resourceNotFound "Item" itemId), s2)
      | some idx =>
        let cart2 := { cart with items := cart.items.eraseIdx idx }
        mockUpdateCart s2 now (calculatePricing now cart2)
  else
    (.error (.validation "Invalid cart ID format. Expected UUID v4."), s)

/-- The mutation arm of `CartService.updateItemQuantity`: the item found by
`itemId` gets the new quantity and `totalPrice = round2(unitPrice *
quantity)`, in place. -/
def setQtyItems (itemId : String) (quantity : ℚ) (items : List CartItem) : List CartItem :=
  updateFirstMatch (fun i => i.itemId = itemId)
    (fun i => { i with
      quantity := quantity
      totalPrice := round2 (i.unitPrice * quantity) })
    items

/-- `CartService.updateItemQuantity`. -/
def svcUpdateItemQuantity (cfg : ServiceConfig) (s : MockStore) (now : ℚ)
    (cartId itemId : String) (quantity : ℚ) : Except DomainError Cart × MockStore :=
  if validCartId cartId then
    match validateQuantity cfg quantity with
    | .error e => (.error e, s)
    | .ok _ =>
      match svcGetCart s now cartId with
      | (.error e, s2) => (.error e, s2)
      | (.ok cart, s2) =>
        match cart.items.find? (fun i => i.itemId = itemId) with
        | none => (.error (.resourceNotFound "Item" itemId), s2)
        | some _ =>
          mockUpdateCart s2 now
            (calculatePricing now
              { cart with items := setQtyItems itemId quantity cart.items })
  else
    (.error (.validation "Invalid cart ID format. Expected UUID v4."), s)

/-- `CartService.clearCart`. -/
def svcClearCart (s : MockStore) (now : ℚ) (cartId : String) :
    Except DomainError Cart × MockStore :=
  if validCartId cartId then
    match svcGetCart s now cartId with
    | (.error e, s2) => (.error e, s2)
    | (.ok cart, s2) =>
      mockUpdateCart s2 now (calculatePricing now { cart with items := [] })
  else
    (.error (.validation "Invalid cart ID format. Expected UUID v4."), s)

/-- `CartService.deleteCart`. -/
def svcDeleteCart (s : MockStore) (cartId : String) :
    Except DomainError Unit × MockStore :=
  if validCartId cartId then
    (.ok (), mockDeleteCart s cartId)
  else
    (.error (.validation "Invalid cart ID format. Expected UUID v4."), s)

/-- Default `CartService` configuration (TTL 5 minutes, bounds 1..99). -/
def defaultConfig : ServiceConfig := {}

/-! ### Association-list lemmas for the store map -/

theorem mapGet_nil (id : String) : mapGet [] id = none := rfl

theorem mapGet_cons (a : String × CartEntry) (t : List (String × CartEntry))
    (id : String) :
    mapGet (a :: t) id = if a.1 = id then some a.2 else mapGet t id := by
  by_cases h : a.1 = id <;> simp [mapGet, List.find?_cons, h]

theorem mapDelete_nil (k : String) : mapDelete [] k = [] := rfl

theorem mapDelete_cons (a : String × CartEntry) (t : List (String × CartEntry))
    (k : String) :
    mapDelete (a :: t) k = if a.1 = k then mapDelete t k else a :: mapDelete t k := by
  by_cases h : a.1 = k <;> simp [mapDelete, List.filter_cons, h]

theorem mapGet_mapDelete_self (m : List (String × CartEntry)) (k : String) :
    mapGet (mapDelete m k) k = none := by
  induction m with
  | nil => rfl
  | cons a t ih =>
    by_cases h : a.1 = k
    · simpa [mapDelete_cons, h] using ih
    · simpa [mapDelete_cons, mapGet_cons, h] using ih

theorem mapGet_mapDelete_ne (m : List (String × CartEntry)) (k id : String)
    (h : id ≠ k) : mapGet (mapDelete m k) id = mapGet m id := by
  induction m with
  | nil => rfl
  | cons a t ih =>
    rw [mapDelete_cons]
    by_cases hak : a.1 = k
    · have hai : ¬ a.1 = id := by rw [hak]; exact fun hc => h hc.symm
      rw [if_pos hak, ih, mapGet_cons, if_neg hai]
    · rw [if_neg hak, mapGet_cons, mapGet_cons]
      by_cases hai : a.1 = id
      · rw [if_pos hai, if_pos hai]
      · rw [if_neg hai, if_neg hai, ih]

theorem mapDelete_idem (m : List (String × CartEntry)) (k : String) :
    mapDelete (mapDelete m k) k = mapDelete m k := by
  induction m with
  | nil => rfl
  | cons a t ih =>
    by_cases h : a.1 = k
    · simpa [mapDelete_cons, h] using ih
    · simp [mapDelete_cons, h, ih]

theorem mapGet_mapSet (m : List (String × CartEntry)) (k id : String) (v : CartEntry) :
    mapGet (mapSet m k v) id = if id = k then some v else mapGet m id := by
  induction m with
  | nil =>
    rw [show mapSet [] k v = [(k, v)] from rfl, mapGet_cons]
    by_cases hik : id = k
    · rw [if_pos hik.symm, if_pos hik]
    · rw [if_neg (fun hc : k = id => hik hc.symm), if_neg hik]
  | cons a t ih =>
    by_cases hak : a.1 = k
    · by_cases hik : id = k
      · subst hik
        simp [mapSet, hak, mapGet_cons]
      · have hai : ¬ a.1 = id := by rw [hak]; exact fun hc => hik hc.symm
        have hki : ¬ (k = id) := fun hc => hik hc.symm
        simp [mapSet, hak, mapGet_cons, hki, hai, hik]
    · by_cases hai : a.1 = id
      · have hik : ¬ (id = k) := fun hc => hak (hai.trans hc)
        simp [mapSet, hak, mapGet_cons, hai, hik]
      · simp [mapSet, hak, mapGet_cons, hai, ih]

/-! ### Basic facts about the engine validators -/

theorem validateQuantity_error_of_bad (cfg : ServiceConfig) (q : ℚ)
    (hbad : ¬ (isIntegerQ q = true ∧ cfg.minQty ≤ q ∧ q ≤ cfg.maxQty)) :
    ∃ m, validateQuantity cfg q = .error (.validation m) := by
  unfold validateQuantity
  split_ifs with h1 h2
  · exact ⟨_, rfl⟩
  · exfalso
    apply hbad
    simp only [Bool.or_eq_true, decide_eq_true_eq, not_or, not_lt] at h2
    exact ⟨h1, h2.1, h2.2⟩
  · exact ⟨_, rfl⟩

theorem validateQuantity_ok_of_good (cfg : ServiceConfig) (q : ℚ)
    (h1 : isIntegerQ q = true) (h2 : cfg.minQty ≤ q) (h3 : q ≤ cfg.maxQty) :
    validateQuantity cfg q = .ok () := by
  unfold validateQuantity
  rw [if_neg (by simp [h1]), if_neg (by simp [not_lt, not_or]; exact ⟨h2, h3⟩)]

/-! ### Concrete values used by the witness theorems -/

def uuidA : String := "00000000-0000-4000-8000-000000000000"

def exProduct : Product :=
  { productId := "prod-1", name := "Test", price := 100, category := .plan }

def exCartEmpty : Cart :=
  { cartId := uuidA, items := [], subtotal := 0, tax := 0, total := 0,
    createdAt := 0, updatedAt := 0, expiresAt := 300000 }

def exEntry : CartEntry := ⟨exCartEmpty, 0⟩

def exStore : MockStore := ⟨[(uuidA, exEntry)], 5⟩

/-! ### Claim theorems -/

/-- C1: for every cart, `StandardPricingStrategy.calculatePricing` returns
`subtotal = round2` of the raw sum of `item.totalPrice`, `tax = round2` of
the raw unrounded subtotal times 0.09, and `total = round2` of the rounded
subtotal plus the rounded tax, the three stages rounded independently in
that order; an empty cart yields all three equal to 0. -/
theorem C1_pricing_stages (now : ℚ) (cart : Cart) :
    (calculatePricing now cart).subtotal = round2 (rawSubtotal cart) ∧
    (calculatePricing now cart).tax = round2 (rawSubtotal cart * (9 / 100)) ∧
    (calculatePricing now cart).total =
      round2 (round2 (rawSubtotal cart) + round2 (rawSubtotal cart * (9 / 100))) ∧
    (cart.items = [] →
      (calculatePricing now cart).subtotal = 0 ∧
      (calculatePricing now cart).tax = 0 ∧
      (calculatePricing now cart).total = 0) := by
  have htot : (calculatePricing now cart).total =
      round2 (rawSubtotal cart + round2 (rawSubtotal cart * TAX_RATE)) := rfl
  have hrate : TAX_RATE = 9 / 100 := rfl
  refine ⟨rfl, rfl, ?_, ?_⟩
  · rw [htot, round2_raw_add_eq_round2_rounded_add _ _ (round2_exists_cent _), hrate]
  · intro h
    have hS : rawSubtotal cart = 0 := by simp [rawSubtotal, h]
    refine ⟨?_, ?_, ?_⟩
    · show round2 (rawSubtotal cart) = 0
      rw [hS, round2_zero]
    · show round2 (rawSubtotal cart * TAX_RATE) = 0
      rw [hS, zero_mul, round2_zero]
    · rw [htot, hS, zero_mul, round2_zero, add_zero, round2_zero]

/-- Witness for C1: the empty-cart clause evaluated on a concrete cart. -/
theorem C1_pricing_stages_witness :
    (calculatePricing 0 exCartEmpty).subtotal = 0 ∧
    (calculatePricing 0 exCartEmpty).tax = 0 ∧
    (calculatePricing 0 exCartEmpty).total = 0 :=
  (C1_pricing_stages 0 exCartEmpty).2.2.2 rfl

/-- C5: for every store state and cart id, a quantity that is not an
integer or lies outside the configured bounds makes `addItem` and
`updateItemQuantity` fail `Validation` with the store left untouched
(in particular also when the cart does not exist or is expired); under the
default bounds, 1 and 99 pass quantity validation while 0 and 100 fail. -/
theorem C5_quantity_validation_before_store_read (cfg : ServiceConfig) (s : MockStore)
    (now : ℚ) (fid cartId itemId : String) (p : Product) (q : ℚ)
    (hbad : ¬ (isIntegerQ q = true ∧ cfg.minQty ≤ q ∧ q ≤ cfg.maxQty)) :
    (isValidation (svcAddItem cfg s now fid cartId ⟨p, q⟩).1 = true ∧
      (svcAddItem cfg s now fid cartId ⟨p, q⟩).2 = s) ∧
    (isValidation (svcUpdateItemQuantity cfg s now cartId itemId q).1 = true ∧
      (svcUpdateItemQuantity cfg s now cartId itemId q).2 = s) ∧
    validateQuantity defaultConfig 1 = .ok () ∧
    validateQuantity defaultConfig 99 = .ok () ∧
    validateQuantity defaultConfig 0 = .error (.validation "Quantity out of bounds.") ∧
    validateQuantity defaultConfig 100 = .error (.validation "Quantity out of bounds.") := by
  obtain ⟨msg, hm⟩ := validateQuantity_error_of_bad cfg q hbad
  refine ⟨?_, ?_, rfl, rfl, rfl, rfl⟩
  · by_cases hv : validCartId cartId
    · constructor <;> simp [svcAddItem, hv, hm, isValidation]
    · constructor <;> simp [svcAddItem, hv, isValidation]
  · by_cases hv : validCartId cartId
    · constructor <;> simp [svcUpdateItemQuantity, hv, hm, isValidation]
    · constructor <;> simp [svcUpdateItemQuantity, hv, isValidation]

/-- Witness for C5: quantity 100 against the one-entry example store. -/
theorem C5_quantity_validation_before_store_read_witness :
    (isValidation (svcAddItem defaultConfig exStore 0 "i-1" uuidA ⟨exProduct, 100⟩).1 = true ∧
      (svcAddItem defaultConfig exStore 0 "i-1" uuidA ⟨exProduct, 100⟩).2 = exStore) ∧
    (isValidation (svcUpdateItemQuantity defaultConfig exStore 0 uuidA "i-1" 100).1 = true ∧
      (svcUpdateItemQuantity defaultConfig exStore 0 uuidA "i-1" 100).2 = exStore) ∧
    validateQuantity defaultConfig 1 = .ok () ∧
    validateQuantity defaultConfig 99 = .ok () ∧
    validateQuantity defaultConfig 0 = .error (.validation "Quantity out of bounds.") ∧
    validateQuantity defaultConfig 100 = .error (.validation "Quantity out of bounds.") :=
  C5_quantity_validation_before_store_read defaultConfig exStore 0 "i-1" uuidA "i-1"
    exProduct 100 (by decide)

/-- C8: for every well-formed v4-UUID cart id, `deleteCart` succeeds on any
store state (existing, expired, already deleted or never existing entry),
its effect is exactly the idempotent `Map.delete`, and deleting the same id
twice also succeeds and changes nothing further. -/
theorem C8_deleteCart_idempotent (s : MockStore) (cartId : String)
    (hvid : validCartId cartId = true) :
    (svcDeleteCart s cartId).1 = .ok () ∧
    (svcDeleteCart s cartId).2 = { s with carts := mapDelete s.carts cartId } ∧
    (svcDeleteCart (svcDeleteCart s cartId).2 cartId).1 = .ok () ∧
    (svcDeleteCart (svcDeleteCart s cartId).2 cartId).2 = (svcDeleteCart s cartId).2 := by
  refine ⟨by simp [svcDeleteCart, hvid], by simp [svcDeleteCart, hvid, mockDeleteCart], ?_, ?_⟩
  · simp [svcDeleteCart, hvid]
  · simp [svcDeleteCart, hvid, mockDeleteCart, mapDelete_idem]

/-- Witness for C8: double delete of the example cart id. -/
theorem C8_deleteCart_idempotent_witness :
    (svcDeleteCart exStore uuidA).1 = .ok () ∧
    (svcDeleteCart exStore uuidA).2 = { exStore with carts := mapDelete exStore.carts uuidA } ∧
    (svcDeleteCart (svcDeleteCart exStore uuidA).2 uuidA).1 = .ok () ∧
    (svcDeleteCart (svcDeleteCart exStore uuidA).2 uuidA).2 = (svcDeleteCart exStore uuidA).2 :=
  C8_deleteCart_idempotent exStore uuidA (by decide)

/-- C10: the store's expiration decision is a function of the entry's
recorded `createdAt` and the configured `ttlMinutes` only — two entries
with the same anchor (and arbitrary carts, in particular arbitrary
`expiresAt`) get the same decision — and the expired/live boundary is
strict: a `getCart` and an `updateCart` at exactly `createdAt + TTL`
still succeed. -/
theorem C10_expiration_anchor_and_boundary (s : MockStore) (cartId : String)
    (entry : CartEntry) (now : ℚ)
    (hget : mapGet s.carts cartId = some entry)
    (hnow : now = entry.createdAt + s.ttlMinutes * 60 * 1000) :
    (∀ e1 e2 : CartEntry, e1.createdAt = e2.createdAt →
      ∀ t : ℚ, isExpired s.ttlMinutes t e1 = isExpired s.ttlMinutes t e2) ∧
    (mockGetCart s now cartId).1 = .ok (some entry.cart) ∧
    (mockGetCart s now cartId).2 = s ∧
    (∀ c : Cart, c.cartId = cartId → (mockUpdateCart s now c).1 = .ok c) := by
  have hlive : isExpired s.ttlMinutes now entry = false := by
    simp [isExpired, hnow]
  refine ⟨?_, ?_, ?_, ?_⟩
  · intro e1 e2 he t
    simp [isExpired, he]
  · simp [mockGetCart, hget, hlive]
  · simp [mockGetCart, hget, hlive]
  · intro c hc
    simp [mockUpdateCart, hc, hget, hlive]

/-- Witness for C10: the example entry read exactly at its expiration
time (createdAt 0, TTL 5 minutes, now 300000 ms). -/
theorem C10_expiration_anchor_and_boundary_witness :
    (∀ e1 e2 : CartEntry, e1.createdAt = e2.createdAt →
      ∀ t : ℚ, isExpired exStore.ttlMinutes t e1 = isExpired exStore.ttlMinutes t e2) ∧
    (mockGetCart exStore 300000 uuidA).1 = .ok (some exEntry.cart) ∧
    (mockGetCart exStore 300000 uuidA).2 = exStore ∧
    (∀ c : Cart, c.cartId = uuidA → (mockUpdateCart exStore 300000 c).1 = .ok c) :=
  C10_expiration_anchor_and_boundary exStore uuidA exEntry 300000 (by decide)
    (by norm_num [exEntry, exStore, exCartEmpty])

/-- C3: a store `Get` strictly before `createdAt + TTL` returns the stored
cart unchanged without touching the store; the first `Get` strictly after
`createdAt + TTL` fails `Expired` and evicts the entry as a side effect;
any later engine-level `getCart` for the same id fails `NotFound`, never
`Expired` again. -/
theorem C3_expired_get_evicts_then_not_found (s : MockStore) (cartId : String)
    (entry : CartEntry) (t1 t2 : ℚ)
    (hget : mapGet s.carts cartId = some entry)
    (h1 : t1 < entry.createdAt + s.ttlMinutes * 60 * 1000)
    (h2 : entry.createdAt + s.ttlMinutes * 60 * 1000 < t2) :
    (mockGetCart s t1 cartId).1 = .ok (some entry.cart) ∧
    (mockGetCart s t1 cartId).2 = s ∧
    (mockGetCart s t2 cartId).1 = .error (.cartExpired cartId) ∧
    mapGet (mockGetCart s t2 cartId).2.carts cartId = none ∧
    (validCartId cartId = true → ∀ t3 : ℚ,
      (svcGetCart (mockGetCart s t2 cartId).2 t3 cartId).1 =
        .error (.resourceNotFound "Cart" cartId) ∧
      (svcGetCart (mockGetCart s t2 cartId).2 t3 cartId).2 =
        (mockGetCart s t2 cartId).2) := by
  have hlive : isExpired s.ttlMinutes t1 entry = false := by
    simp only [isExpired, decide_eq_false_iff_not, not_lt]
    exact le_of_lt h1
  have hexp : isExpired s.ttlMinutes t2 entry = true := by
    simp only [isExpired, decide_eq_true_eq]
    exact h2
  have hstore2 : (mockGetCart s t2 cartId).2 =
      { s with carts := mapDelete s.carts cartId } := by
    simp [mockGetCart, hget, hexp]
  refine ⟨by simp [mockGetCart, hget, hlive], by simp [mockGetCart, hget, hlive],
    by simp [mockGetCart, hget, hexp], ?_, ?_⟩
  · rw [hstore2]
    exact mapGet_mapDelete_self s.carts cartId
  · intro hv t3
    rw [hstore2]
    constructor <;>
      simp [svcGetCart, mockGetCart, hv, mapGet_mapDelete_self]

/-- Witness for C3: the example entry queried at 100 ms (live) and at
300001 ms (expired), then again through the engine. -/
theorem C3_expired_get_evicts_then_not_found_witness :
    (mockGetCart exStore 100 uuidA).1 = .ok (some exEntry.cart) ∧
    (mockGetCart exStore 100 uuidA).2 = exStore ∧
    (mockGetCart exStore 300001 uuidA).1 = .error (.cartExpired uuidA) ∧
    mapGet (mockGetCart exStore 300001 uuidA).2.carts uuidA = none ∧
    (validCartId uuidA = true → ∀ t3 : ℚ,
      (svcGetCart (mockGetCart exStore 300001 uuidA).2 t3 uuidA).1 =
        .error (.resourceNotFound "Cart" uuidA) ∧
      (svcGetCart (mockGetCart exStore 300001 uuidA).2 t3 uuidA).2 =
        (mockGetCart exStore 300001 uuidA).2) :=
  C3_expired_get_evicts_then_not_found exStore uuidA exEntry 100 300001
    (by decide) (by norm_num [exEntry, exStore]) (by norm_num [exEntry, exStore])

theorem validateQuantity_ok_or_validation (cfg : ServiceConfig) (q : ℚ) :
    validateQuantity cfg q = .ok () ∨
      ∃ m, validateQuantity cfg q = .error (.validation m) := by
  unfold validateQuantity
  split_ifs
  all_goals first
    | exact .inl rfl
    | exact .inr ⟨_, rfl⟩

theorem validateProduct_ok_or_validation (p : Product) :
    validateProduct p = .ok () ∨
      ∃ m, validateProduct p = .error (.validation m) := by
  unfold validateProduct
  split_ifs
  all_goals first
    | exact .inl rfl
    | exact .inr ⟨_, rfl⟩

/-- Example cart item for product prod-1 with quantity 50 already in the cart. -/
def exItem50 : CartItem :=
  { itemId := "i-0", product := exProduct, quantity := 50, unitPrice := 100,
    totalPrice := 5000, addedAt := 0 }

def exCart50 : Cart :=
  { cartId := uuidA, items := [exItem50], subtotal := 5000, tax := 450,
    total := 5450, createdAt := 0, updatedAt := 0, expiresAt := 300000 }

def exStore50 : MockStore := ⟨[(uuidA, ⟨exCart50, 0⟩)], 5⟩

/-- C2: for every stored live cart whose first item for the requested
product has quantity `q0`, an `addItem` whose merged quantity `q0 + q`
exceeds `maxQty` fails `Validation` and leaves the store exactly as it
was — the merged total is validated before any mutation. -/
theorem C2_merge_overflow_rejected_store_unchanged (cfg : ServiceConfig) (s : MockStore)
    (now : ℚ) (fid cartId : String) (req : AddItemRequest)
    (entry : CartEntry) (item0 : CartItem)
    (hget : mapGet s.carts cartId = some entry)
    (hlive : isExpired s.ttlMinutes now entry = false)
    (hfind : entry.cart.items.find?
      (fun it => it.product.productId = req.product.productId) = some item0)
    (hover : item0.quantity + req.quantity > cfg.maxQty) :
    isValidation (svcAddItem cfg s now fid cartId req).1 = true ∧
    (svcAddItem cfg s now fid cartId req).2 = s := by
  by_cases hv : validCartId cartId
  · rcases validateQuantity_ok_or_validation cfg req.quantity with hq | ⟨m1, hq⟩
    · rcases validateProduct_ok_or_validation req.product with hp | ⟨m2, hp⟩
      · constructor <;>
          simp [svcAddItem, hv, hq, hp, svcGetCart, mockGetCart, hget, hlive,
            hfind, hover, isValidation]
      · constructor <;> simp [svcAddItem, hv, hq, hp, isValidation]
    · constructor <;> simp [svcAddItem, hv, hq, isValidation]
  · constructor <;> simp [svcAddItem, hv, isValidation]

/-- Witness for C2: quantity 50 merged onto stored quantity 50 with the
default maximum 99. -/
theorem C2_merge_overflow_rejected_store_unchanged_witness :
    isValidation (svcAddItem defaultConfig exStore50 0 "i-1" uuidA ⟨exProduct, 50⟩).1 = true ∧
    (svcAddItem defaultConfig exStore50 0 "i-1" uuidA ⟨exProduct, 50⟩).2 = exStore50 :=
  C2_merge_overflow_rejected_store_unchanged defaultConfig exStore50 0 "i-1" uuidA
    ⟨exProduct, 50⟩ ⟨exCart50, 0⟩ exItem50 rfl
    (by simp only [isExpired, exStore50, decide_eq_false_iff_not, not_lt]; norm_num)
    rfl
    (by norm_num [exItem50, defaultConfig])

/-! ### Evaluation lemmas for the addItem paths -/

theorem find?_of_filter_eq_singleton (p : CartItem → Bool) (l : List CartItem)
    (a : CartItem) (h : l.filter p = [a]) : l.find? p = some a := by
  induction l with
  | nil => simp at h
  | cons b t ih =>
    by_cases hb : p b = true
    · simp only [List.filter_cons, hb, if_true, List.cons.injEq] at h
      rw [List.find?_cons_of_pos _ hb, h.1]
    · simp only [List.filter_cons, hb, if_false, Bool.false_eq_true] at h
      rw [List.find?_cons_of_neg _ (by simpa using hb)]
      exact ih h

theorem filter_updateFirstMatch_singleton (p : CartItem → Bool) (f : CartItem → CartItem)
    (l : List CartItem) (a : CartItem) (h : l.filter p = [a]) (hf : p (f a) = true) :
    (updateFirstMatch p f l).filter p = [f a] := by
  induction l with
  | nil => simp at h
  | cons b t ih =>
    by_cases hb : p b = true
    · simp only [List.filter_cons, hb, if_true, List.cons.injEq] at h
      obtain ⟨hba, hnil⟩ := h
      subst hba
      simp [updateFirstMatch, hb, List.filter_cons, hf, hnil]
    · simp only [List.filter_cons, hb, if_false, Bool.false_eq_true] at h
      simp [updateFirstMatch, hb, List.filter_cons, ih h]

theorem mockUpdateCart_ok (s : MockStore) (now : ℚ) (c : Cart) (entry : CartEntry)
    (hget : mapGet s.carts c.cartId = some entry)
    (hlive : isExpired s.ttlMinutes now entry = false) :
    mockUpdateCart s now c =
      (.ok c, { s with carts := mapSet s.carts c.cartId ⟨c, entry.createdAt⟩ }) := by
  simp [mockUpdateCart, hget, hlive]

theorem svcAddItem_merge_eval (cfg : ServiceConfig) (s : MockStore) (now : ℚ)
    (fid cartId : String) (req : AddItemRequest) (entry : CartEntry) (item0 : CartItem)
    (hv : validCartId cartId = true)
    (hq : validateQuantity cfg req.quantity = .ok ())
    (hp : validateProduct req.product = .ok ())
    (hget : mapGet s.carts cartId = some entry)
    (hlive : isExpired s.ttlMinutes now entry = false)
    (hfind : entry.cart.items.find?
      (fun it => it.product.productId = req.product.productId) = some item0)
    (hle : ¬ item0.quantity + req.quantity > cfg.maxQty) :
    svcAddItem cfg s now fid cartId req =
      mockUpdateCart s now
        (calculatePricing now
          { entry.cart with items := mergeItems req entry.cart.items }) := by
  simp [svcAddItem, hv, hq, hp, svcGetCart, mockGetCart, hget, hlive, hfind, hle]

theorem svcAddItem_append_eval (cfg : ServiceConfig) (s : MockStore) (now : ℚ)
    (fid cartId : String) (req : AddItemRequest) (entry : CartEntry)
    (hv : validCartId cartId = true)
    (hq : validateQuantity cfg req.quantity = .ok ())
    (hp : validateProduct req.product = .ok ())
    (hget : mapGet s.carts cartId = some entry)
    (hlive : isExpired s.ttlMinutes now entry = false)
    (hfind : entry.cart.items.find?
      (fun it => it.product.productId = req.product.productId) = none) :
    svcAddItem cfg s now fid cartId req =
      mockUpdateCart s now
        (calculatePricing now
          { entry.cart with items := entry.cart.items ++ [newCartItem fid now req] }) := by
  simp [svcAddItem, hv, hq, hp, svcGetCart, mockGetCart, hget, hlive, hfind]

/-- C4: a successful `addItem` for a product already in the cart merges
into the single existing line item: quantity becomes `q0 + q` and
`totalPrice = round2(u * (q0 + q))` where `u` is the original snapshot
`unitPrice` (the request's price is not re-read); in particular, adding
quantity 1 of a product twice to an empty cart yields exactly one item
with quantity 2 and `totalPrice = unitPrice * 2`. -/
theorem C4_merge_accumulates_snapshot (cfg : ServiceConfig) (s : MockStore) (now : ℚ)
    (fid cartId : String) (req : AddItemRequest) (entry : CartEntry)
    (hv : validCartId cartId = true)
    (hq : validateQuantity cfg req.quantity = .ok ())
    (hp : validateProduct req.product = .ok ())
    (hget : mapGet s.carts cartId = some entry)
    (hcid : entry.cart.cartId = cartId)
    (hlive : isExpired s.ttlMinutes now entry = false) :
    (∀ item0, entry.cart.items.filter
        (fun it => it.product.productId = req.product.productId) = [item0] →
      ¬ item0.quantity + req.quantity > cfg.maxQty →
      ∃ cart2, (svcAddItem cfg s now fid cartId req).1 = .ok cart2 ∧
        cart2.items.filter (fun it => it.product.productId = req.product.productId) =
          [{ item0 with
              quantity := item0.quantity + req.quantity
              totalPrice := round2 (item0.unitPrice * (item0.quantity + req.quantity)) }]) ∧
    (∀ (fid2 : String) (n : ℤ), entry.cart.items = [] → req.quantity = 1 →
      req.product.price = (n : ℚ) / 100 → (2 : ℚ) ≤ cfg.maxQty →
      ∃ cart3 it2,
        (svcAddItem cfg (svcAddItem cfg s now fid cartId req).2 now fid2 cartId req).1 =
          .ok cart3 ∧
        cart3.items = [it2] ∧ it2.quantity = 2 ∧ it2.unitPrice = req.product.price ∧
        it2.totalPrice = req.product.price * 2 ∧
        it2.product.productId = req.product.productId) := by
  constructor
  · intro item0 hone hle
    have hp0 : (item0.product.productId = req.product.productId) = True := by
      have hmem : item0 ∈ entry.cart.items.filter
          (fun it => it.product.productId = req.product.productId) := by
        rw [hone]
        exact List.mem_singleton.mpr rfl
      simpa using (List.mem_filter.mp hmem).2
    have hfind := find?_of_filter_eq_singleton _ _ _ hone
    rw [svcAddItem_merge_eval cfg s now fid cartId req entry item0 hv hq hp hget hlive
      hfind hle]
    have hgc : mapGet s.carts (calculatePricing now
        { entry.cart with items := mergeItems req entry.cart.items }).cartId = some entry := by
      have hcc : (calculatePricing now
          { entry.cart with items := mergeItems req entry.cart.items }).cartId = cartId := by
        simp [calculatePricing, hcid]
      rw [hcc]
      exact hget
    rw [mockUpdateCart_ok s now _ entry hgc hlive]
    refine ⟨_, rfl, ?_⟩
    show (mergeItems req entry.cart.items).filter
      (fun it => it.product.productId = req.product.productId) = _
    exact filter_updateFirstMatch_singleton _ _ _ _ hone (by simpa using hp0)
  · intro fid2 n hempty hq1 hgrid hmax
    have hfind1 : entry.cart.items.find?
        (fun it => it.product.productId = req.product.productId) = none := by
      rw [hempty]
      rfl
    rw [svcAddItem_append_eval cfg s now fid cartId req entry hv hq hp hget hlive hfind1]
    have hcc1 : (calculatePricing now
        { entry.cart with items := entry.cart.items ++ [newCartItem fid now req] }).cartId =
        cartId := by
      simp [calculatePricing, hcid]
    have hgc1 : mapGet s.carts (calculatePricing now
        { entry.cart with items := entry.cart.items ++ [newCartItem fid now req] }).cartId =
        some entry := by
      rw [hcc1]
      exact hget
    have hitems1 : (calculatePricing now
        { entry.cart with items := entry.cart.items ++ [newCartItem fid now req] }).items =
        [newCartItem fid now req] := by
      simp [calculatePricing, hempty]
    rw [mockUpdateCart_ok s now _ entry hgc1 hlive]
    dsimp only
    rw [hcc1]
    generalize hC1 : calculatePricing now
      { entry.cart with items := entry.cart.items ++ [newCartItem fid now req] } = C1
      at hitems1 ⊢
    have hget2 : mapGet (mapSet s.carts cartId ⟨C1, entry.createdAt⟩) cartId =
        some ⟨C1, entry.createdAt⟩ := by
      rw [mapGet_mapSet, if_pos rfl]
    have hlive2 : isExpired s.ttlMinutes now
        (⟨C1, entry.createdAt⟩ : CartEntry) = false := hlive
    have hfind2 : C1.items.find?
        (fun it => it.product.productId = req.product.productId) =
        some (newCartItem fid now req) := by
      rw [hitems1]
      exact List.find?_cons_of_pos _ (by simp [newCartItem])
    have hle2 : ¬ (newCartItem fid now req).quantity + req.quantity > cfg.maxQty := by
      show ¬ req.quantity + req.quantity > cfg.maxQty
      rw [hq1, not_lt]
      calc (1 : ℚ) + 1 = 2 := by norm_num
        _ ≤ cfg.maxQty := hmax
    rw [svcAddItem_merge_eval cfg
      ⟨mapSet s.carts cartId ⟨C1, entry.createdAt⟩, s.ttlMinutes⟩ now fid2 cartId req
      ⟨C1, entry.createdAt⟩ (newCartItem fid now req) hv hq hp hget2 hlive2
      hfind2 hle2]
    have hC1id : C1.cartId = cartId := by rw [← hC1, hcc1]
    have hcc3 : (calculatePricing now
        { C1 with items := mergeItems req C1.items }).cartId = cartId := by
      simp [calculatePricing, hC1id]
    have hgc3 : mapGet (mapSet s.carts cartId ⟨C1, entry.createdAt⟩)
        (calculatePricing now { C1 with items := mergeItems req C1.items }).cartId =
        some ⟨C1, entry.createdAt⟩ := by
      rw [hcc3]
      exact hget2
    rw [mockUpdateCart_ok ⟨mapSet s.carts cartId ⟨C1, entry.createdAt⟩, s.ttlMinutes⟩ now
      (calculatePricing now { C1 with items := mergeItems req C1.items })
      ⟨C1, entry.createdAt⟩ hgc3 hlive2]
    dsimp only
    refine ⟨_, { newCartItem fid now req with
        quantity := (newCartItem fid now req).quantity + req.quantity
        totalPrice := round2 ((newCartItem fid now req).unitPrice *
          ((newCartItem fid now req).quantity + req.quantity)) },
      rfl, ?_, ?_, rfl, ?_, rfl⟩
    · show mergeItems req C1.items = _
      rw [hitems1]
      rw [show mergeItems req [newCartItem fid now req] =
        [{ newCartItem fid now req with
            quantity := (newCartItem fid now req).quantity + req.quantity
            totalPrice := round2 ((newCartItem fid now req).unitPrice *
              ((newCartItem fid now req).quantity + req.quantity)) }] from by
        simp [mergeItems, updateFirstMatch, newCartItem]]
    · show (newCartItem fid now req).quantity + req.quantity = 2
      show req.quantity + req.quantity = 2
      rw [hq1]
      norm_num
    · show round2 ((newCartItem fid now req).unitPrice *
        ((newCartItem fid now req).quantity + req.quantity)) = req.product.price * 2
      show round2 (req.product.price * (req.quantity + req.quantity)) = req.product.price * 2
      rw [hq1, hgrid]
      rw [show (n : ℚ) / 100 * ((1 : ℚ) + 1) = ((2 * n : ℤ) : ℚ) / 100 by push_cast; ring,
        round2_cent]
      push_cast
      ring

/-- Witness for C4: quantity 25 merged onto stored quantity 50. -/
theorem C4_merge_accumulates_snapshot_witness :
    ∃ cart2, (svcAddItem defaultConfig exStore50 0 "i-1" uuidA ⟨exProduct, 25⟩).1 =
        .ok cart2 ∧
      cart2.items.filter
        (fun it => it.product.productId =
          (⟨exProduct, 25⟩ : AddItemRequest).product.productId) =
        [{ exItem50 with
            quantity := exItem50.quantity + (⟨exProduct, 25⟩ : AddItemRequest).quantity
            totalPrice := round2 (exItem50.unitPrice *
              (exItem50.quantity + (⟨exProduct, 25⟩ : AddItemRequest).quantity)) }] :=
  (C4_merge_accumulates_snapshot defaultConfig exStore50 0 "i-1" uuidA ⟨exProduct, 25⟩
    ⟨exCart50, 0⟩ (by decide) rfl rfl rfl rfl
    (by simp only [isExpired, exStore50, decide_eq_false_iff_not, not_lt]; norm_num)).1
    exItem50 rfl (by norm_num [exItem50, defaultConfig])

/-! ### Store operation sequences (C6) -/

/-- A store-level access: a `getCart` or an `updateCart` at some time. -/
inductive StoreOp where
  | get (now : ℚ) (cartId : String)
  | update (now : ℚ) (cart : Cart)

/-- State effect of one store access. -/
def applyStoreOp (s : MockStore) : StoreOp → MockStore
  | .get now cartId => (mockGetCart s now cartId).2
  | .update now cart => (mockUpdateCart s now cart).2

/-- State effect of a sequence of store accesses. -/
def runStoreOps (s : MockStore) : List StoreOp → MockStore
  | [] => s
  | op :: rest => runStoreOps (applyStoreOp s op) rest

theorem applyStoreOp_ttl (s : MockStore) (op : StoreOp) :
    (applyStoreOp s op).ttlMinutes = s.ttlMinutes := by
  cases op with
  | get now cartId =>
    show (mockGetCart s now cartId).2.ttlMinutes = s.ttlMinutes
    unfold mockGetCart
    split
    · rfl
    · split <;> rfl
  | update now cart =>
    show (mockUpdateCart s now cart).2.ttlMinutes = s.ttlMinutes
    unfold mockUpdateCart
    split
    · rfl
    · split <;> rfl

theorem applyStoreOp_anchor (s : MockStore) (op : StoreOp) (id : String) (e2 : CartEntry)
    (h : mapGet (applyStoreOp s op).carts id = some e2) :
    ∃ e1, mapGet s.carts id = some e1 ∧ e2.createdAt = e1.createdAt := by
  cases op with
  | get now cartId =>
    replace h : mapGet (mockGetCart s now cartId).2.carts id = some e2 := h
    unfold mockGetCart at h
    split at h
    · exact ⟨e2, h, rfl⟩
    · rename_i entry hentry
      split at h
      · by_cases hid : id = cartId
        · rw [hid] at h
          dsimp only at h
          rw [mapGet_mapDelete_self] at h
          exact absurd h (by simp)
        · dsimp only at h
          rw [mapGet_mapDelete_ne _ _ _ hid] at h
          exact ⟨e2, h, rfl⟩
      · exact ⟨e2, h, rfl⟩
  | update now cart =>
    replace h : mapGet (mockUpdateCart s now cart).2.carts id = some e2 := h
    unfold mockUpdateCart at h
    split at h
    · exact ⟨e2, h, rfl⟩
    · rename_i entry hentry
      split at h
      · by_cases hid : id = cart.cartId
        · rw [hid] at h
          dsimp only at h
          rw [mapGet_mapDelete_self] at h
          exact absurd h (by simp)
        · dsimp only at h
          rw [mapGet_mapDelete_ne _ _ _ hid] at h
          exact ⟨e2, h, rfl⟩
      · dsimp only at h
        rw [mapGet_mapSet] at h
        by_cases hid : id = cart.cartId
        · rw [if_pos hid] at h
          refine ⟨entry, ?_, ?_⟩
          · rw [hid]
            exact hentry
          · have he2 : e2 = ⟨cart, entry.createdAt⟩ := by
              injection h.symm
            rw [he2]
        · rw [if_neg hid] at h
          exact ⟨e2, h, rfl⟩

theorem runStoreOps_anchor (ops : List StoreOp) (s : MockStore) (id : String)
    (e2 : CartEntry)
    (h : mapGet (runStoreOps s ops).carts id = some e2) :
    ∃ e1, mapGet s.carts id = some e1 ∧ e2.createdAt = e1.createdAt ∧
      (runStoreOps s ops).ttlMinutes = s.ttlMinutes := by
  induction ops generalizing s with
  | nil => exact ⟨e2, h, rfl, rfl⟩
  | cons op rest ih =>
    obtain ⟨em, hm, hcm, htm⟩ := ih (applyStoreOp s op) h
    obtain ⟨e1, h1, hc1⟩ := applyStoreOp_anchor s op id em hm
    refine ⟨e1, h1, by rw [hcm, hc1], ?_⟩
    show (runStoreOps (applyStoreOp s op) rest).ttlMinutes = _
    rw [htm, applyStoreOp_ttl]

/-- C6: over any sequence of store `Get` and `Update` accesses, a surviving
entry keeps the `createdAt` anchor recorded when the cart was first stored,
and the TTL configuration is unchanged, so its expiration decision at every
time equals the original one: updates overwrite the cart data but never
reset the expiration clock (absolute, not sliding, expiration). -/
theorem C6_updates_never_reset_expiration (ops : List StoreOp) (s : MockStore)
    (cartId : String) (e e2 : CartEntry)
    (h0 : mapGet s.carts cartId = some e)
    (h1 : mapGet (runStoreOps s ops).carts cartId = some e2) :
    e2.createdAt = e.createdAt ∧
    ∀ t : ℚ, isExpired (runStoreOps s ops).ttlMinutes t e2 =
      isExpired s.ttlMinutes t e := by
  obtain ⟨e1, he1, hc, ht⟩ := runStoreOps_anchor ops s cartId e2 h1
  have hee : e = e1 := by
    injection h0.symm.trans he1
  subst hee
  refine ⟨hc, fun t => ?_⟩
  rw [ht]
  unfold isExpired
  rw [hc]

/-- Cart data overwritten by the C6 witness update. -/
def exCartUpdated : Cart := { exCartEmpty with subtotal := 42 }

/-- Witness for C6: one `updateCart` overwriting the example cart. -/
theorem C6_updates_never_reset_expiration_witness :
    (⟨exCartUpdated, 0⟩ : CartEntry).createdAt = exEntry.createdAt ∧
    ∀ t : ℚ, isExpired (runStoreOps exStore [StoreOp.update 0 exCartUpdated]).ttlMinutes t
        ⟨exCartUpdated, 0⟩ =
      isExpired exStore.ttlMinutes t exEntry := by
  have hlive : isExpired exStore.ttlMinutes 0 exEntry = false := by
    simp only [isExpired, exStore, decide_eq_false_iff_not, not_lt]
    norm_num [exEntry, exCartEmpty]
  have hrun : runStoreOps exStore [StoreOp.update 0 exCartUpdated] =
      { exStore with carts := mapSet exStore.carts uuidA ⟨exCartUpdated, 0⟩ } := by
    show (mockUpdateCart exStore 0 exCartUpdated).2 = _
    rw [mockUpdateCart_ok exStore 0 exCartUpdated exEntry rfl hlive]
    rfl
  have h1 : mapGet (runStoreOps exStore [StoreOp.update 0 exCartUpdated]).carts uuidA =
      some ⟨exCartUpdated, 0⟩ := by
    rw [hrun]
    show mapGet (mapSet exStore.carts uuidA ⟨exCartUpdated, 0⟩) uuidA = _
    rw [mapGet_mapSet, if_pos rfl]
  exact C6_updates_never_reset_expiration [StoreOp.update 0 exCartUpdated] exStore uuidA
    exEntry ⟨exCartUpdated, 0⟩ rfl h1

/-! ### Engine-level data invariants (C7) -/

/-- The two cart data invariants of §3: no two items reference the same
product id, and every totalPrice is derived from the snapshot unit price. -/
def CartInv (c : Cart) : Prop :=
  (c.items.map (fun it => it.product.productId)).Nodup ∧
  ∀ it ∈ c.items, it.totalPrice = round2 (it.unitPrice * it.quantity)

/-- Every cart stored in the session store satisfies `CartInv`. -/
def StoreInv (s : MockStore) : Prop :=
  ∀ id e, mapGet s.carts id = some e → CartInv e.cart

theorem storeInv_delete (s : MockStore) (k : String) (h : StoreInv s) :
    StoreInv { s with carts := mapDelete s.carts k } := by
  intro id e he
  by_cases hid : id = k
  · rw [hid] at he
    dsimp only at he
    rw [mapGet_mapDelete_self] at he
    cases he
  · dsimp only at he
    rw [mapGet_mapDelete_ne _ _ _ hid] at he
    exact h id e he

theorem storeInv_set (s : MockStore) (k : String) (c : Cart) (a : ℚ)
    (h : StoreInv s) (hc : CartInv c) :
    StoreInv { s with carts := mapSet s.carts k ⟨c, a⟩ } := by
  intro id e he
  dsimp only at he
  rw [mapGet_mapSet] at he
  by_cases hid : id = k
  · rw [if_pos hid] at he
    have he2 : e = ⟨c, a⟩ := by injection he.symm
    rw [he2]
    exact hc
  · rw [if_neg hid] at he
    exact h id e he

theorem storeInv_mockGetCart (s : MockStore) (now : ℚ) (cartId : String)
    (h : StoreInv s) : StoreInv (mockGetCart s now cartId).2 := by
  unfold mockGetCart
  split
  · exact h
  · split
    · exact storeInv_delete s cartId h
    · exact h

theorem storeInv_mockUpdateCart (s : MockStore) (now : ℚ) (c : Cart)
    (h : StoreInv s) (hc : CartInv c) : StoreInv (mockUpdateCart s now c).2 := by
  unfold mockUpdateCart
  split
  · exact h
  · rename_i entry hentry
    split
    · exact storeInv_delete s c.cartId h
    · exact storeInv_set s c.cartId c entry.createdAt h hc

theorem mockUpdateCart_ok_cart (s : MockStore) (now : ℚ) (c0 c : Cart)
    (h : (mockUpdateCart s now c0).1 = .ok c) : c = c0 := by
  unfold mockUpdateCart at h
  split at h
  · simp at h
  · split at h
    · simp at h
    · dsimp only at h
      injection h with h2
      exact h2.symm

theorem svcGetCart_ok (s : MockStore) (now : ℚ) (cartId : String) (c : Cart)
    (s2 : MockStore) (h : svcGetCart s now cartId = (.ok c, s2)) :
    s2 = s ∧ ∃ entry, mapGet s.carts cartId = some entry ∧ c = entry.cart := by
  unfold svcGetCart at h
  split at h
  · split at h
    · rename_i heq
      rw [Prod.mk.injEq] at h
      simp at h
    · rename_i c1 s1 heq
      rw [Prod.mk.injEq] at h
      obtain ⟨hc1, hs1⟩ := h
      injection hc1 with hc1
      unfold mockGetCart at heq
      split at heq
      · rw [Prod.mk.injEq] at heq
        simp at heq
      · rename_i entry hentry
        split at heq
        · rw [Prod.mk.injEq] at heq
          simp at heq
        · rw [Prod.mk.injEq] at heq
          obtain ⟨he1, he2⟩ := heq
          injection he1 with he1
          injection he1 with he1
          refine ⟨by rw [← hs1, ← he2], entry, hentry, by rw [← hc1, ← he1]⟩
    · rename_i heq
      rw [Prod.mk.injEq] at h
      simp at h
  · rw [Prod.mk.injEq] at h
    simp at h

theorem storeInv_svcGetCart (s : MockStore) (now : ℚ) (cartId : String)
    (h : StoreInv s) : StoreInv (svcGetCart s now cartId).2 := by
  unfold svcGetCart
  split
  · split
    all_goals
      rename_i heq
      have h2 := congrArg Prod.snd heq
      dsimp only at h2
      rw [← h2]
      exact storeInv_mockGetCart s now cartId h
  · exact h

theorem map_updateFirstMatch (g : CartItem → String) (p : CartItem → Bool)
    (f : CartItem → CartItem) (hg : ∀ x, g (f x) = g x) (l : List CartItem) :
    (updateFirstMatch p f l).map g = l.map g := by
  induction l with
  | nil => rfl
  | cons b t ih =>
    unfold updateFirstMatch
    by_cases hb : p b = true
    · simp [hb, hg]
    · simp [hb, ih]

theorem mem_updateFirstMatch (p : CartItem → Bool) (f : CartItem → CartItem)
    (l : List CartItem) (it : CartItem) (h : it ∈ updateFirstMatch p f l) :
    it ∈ l ∨ ∃ x ∈ l, it = f x := by
  induction l with
  | nil => simp [updateFirstMatch] at h
  | cons b t ih =>
    unfold updateFirstMatch at h
    by_cases hb : p b = true
    · rw [if_pos hb] at h
      rcases List.mem_cons.mp h with h1 | h2
      · exact .inr ⟨b, List.mem_cons_self b t, h1⟩
      · exact .inl (List.mem_cons_of_mem _ h2)
    · rw [if_neg hb] at h
      rcases List.mem_cons.mp h with h1 | h2
      · exact .inl (by rw [h1]; exact List.mem_cons_self b t)
      · rcases ih h2 with h3 | ⟨x, hx, hfx⟩
        · exact .inl (List.mem_cons_of_mem _ h3)
        · exact .inr ⟨x, List.mem_cons_of_mem _ hx, hfx⟩

theorem cartInv_empty_items (c : Cart) (h : c.items = []) : CartInv c := by
  constructor <;> simp [h]

theorem cartInv_calculatePricing (now : ℚ) (c : Cart) (h : CartInv c) :
    CartInv (calculatePricing now c) := h

theorem cartInv_mergeItems (c : Cart) (req : AddItemRequest) (h : CartInv c) :
    CartInv { c with items := mergeItems req c.items } := by
  obtain ⟨hnd, htp⟩ := h
  constructor
  · show ((mergeItems req c.items).map (fun it => it.product.productId)).Nodup
    unfold mergeItems
    rw [map_updateFirstMatch (fun it => it.product.productId)
      (fun it => it.product.productId = req.product.productId)
      (fun it => { it with
        quantity := it.quantity + req.quantity
        totalPrice := round2 (it.unitPrice * (it.quantity + req.quantity)) })
      (fun x => rfl) c.items]
    exact hnd
  · intro it hit
    rcases mem_updateFirstMatch _ _ _ _ hit with h1 | ⟨x, hx, hfx⟩
    · exact htp it h1
    · rw [hfx]

theorem cartInv_setQtyItems (c : Cart) (itemId : String) (q : ℚ) (h : CartInv c) :
    CartInv { c with items := setQtyItems itemId q c.items } := by
  obtain ⟨hnd, htp⟩ := h
  constructor
  · show ((setQtyItems itemId q c.items).map (fun it => it.product.productId)).Nodup
    unfold setQtyItems
    rw [map_updateFirstMatch (fun it => it.product.productId)
      (fun i => i.itemId = itemId)
      (fun i => { i with
        quantity := q
        totalPrice := round2 (i.unitPrice * q) })
      (fun x => rfl) c.items]
    exact hnd
  · intro it hit
    rcases mem_updateFirstMatch _ _ _ _ hit with h1 | ⟨x, hx, hfx⟩
    · exact htp it h1
    · rw [hfx]

theorem cartInv_append (c : Cart) (fid : String) (now : ℚ) (req : AddItemRequest)
    (h : CartInv c)
    (hnone : c.items.find?
      (fun it => it.product.productId = req.product.productId) = none) :
    CartInv { c with items := c.items ++ [newCartItem fid now req] } := by
  obtain ⟨hnd, htp⟩ := h
  constructor
  · show ((c.items ++ [newCartItem fid now req]).map _).Nodup
    rw [List.map_append, List.nodup_append]
    refine ⟨hnd, List.nodup_singleton _, ?_⟩
    intro a ha hb
    obtain ⟨x, hx, hxa⟩ := List.mem_map.mp ha
    have hne := List.find?_eq_none.mp hnone x hx
    simp only [List.map_cons, List.map_nil, List.mem_singleton] at hb
    apply hne
    simp only [decide_eq_true_eq]
    rw [hxa, hb]
    rfl
  · intro it hit
    rcases List.mem_append.mp hit with h1 | h2
    · exact htp it h1
    · rw [List.mem_singleton.mp h2]
      rfl

theorem cartInv_eraseIdx (c : Cart) (i : ℕ) (h : CartInv c) :
    CartInv { c with items := c.items.eraseIdx i } := by
  obtain ⟨hnd, htp⟩ := h
  constructor
  · exact List.Nodup.sublist (List.Sublist.map _ (List.eraseIdx_sublist c.items i)) hnd
  · intro it hit
    exact htp it ((List.eraseIdx_sublist c.items i).subset hit)

theorem toOption_eq_some (r : Except DomainError Cart) (c : Cart)
    (h : r.toOption = some c) : r = .ok c := by
  cases r with
  | ok v =>
    simp only [Except.toOption, Option.some.injEq] at h
    rw [h]
  | error e => simp [Except.toOption] at h

theorem addItem_inv (cfg : ServiceConfig) (s : MockStore) (now : ℚ)
    (fid cartId : String) (req : AddItemRequest) (h : StoreInv s) :
    StoreInv (svcAddItem cfg s now fid cartId req).2 ∧
    ∀ c, (svcAddItem cfg s now fid cartId req).1 = .ok c → CartInv c := by
  unfold svcAddItem
  split
  · split
    · exact ⟨h, fun c hc => by simp at hc⟩
    · split
      · exact ⟨h, fun c hc => by simp at hc⟩
      · split
        · rename_i e s2 heq
          have h2 := congrArg Prod.snd heq
          dsimp only at h2
          refine ⟨?_, fun c hc => by simp at hc⟩
          rw [← h2]
          exact storeInv_svcGetCart s now cartId h
        · rename_i cart s2 heq
          obtain ⟨hs2, entry, hentry, hcart⟩ := svcGetCart_ok s now cartId cart s2 heq
          subst hs2
          have hci : CartInv cart := by
            rw [hcart]
            exact h cartId entry hentry
          split
          · rename_i item hfind
            split
            · exact ⟨h, fun c hc => by simp at hc⟩
            · refine ⟨?_, ?_⟩
              · exact storeInv_mockUpdateCart _ _ _ h
                  (cartInv_calculatePricing _ _ (cartInv_mergeItems _ _ hci))
              · intro c hc
                rw [mockUpdateCart_ok_cart _ _ _ _ hc]
                exact cartInv_calculatePricing _ _ (cartInv_mergeItems _ _ hci)
          · rename_i hfind
            refine ⟨?_, ?_⟩
            · exact storeInv_mockUpdateCart _ _ _ h
                (cartInv_calculatePricing _ _ (cartInv_append _ fid now _ hci hfind))
            · intro c hc
              rw [mockUpdateCart_ok_cart _ _ _ _ hc]
              exact cartInv_calculatePricing _ _ (cartInv_append _ fid now _ hci hfind)
  · exact ⟨h, fun c hc => by simp at hc⟩

theorem removeItem_inv (s : MockStore) (now : ℚ) (cartId itemId : String)
    (h : StoreInv s) :
    StoreInv (svcRemoveItem s now cartId itemId).2 ∧
    ∀ c, (svcRemoveItem s now cartId itemId).1 = .ok c → CartInv c := by
  unfold svcRemoveItem
  split
  · split
    · rename_i e s2 heq
      have h2 := congrArg Prod.snd heq
      dsimp only at h2
      refine ⟨?_, fun c hc => by simp at hc⟩
      rw [← h2]
      exact storeInv_svcGetCart s now cartId h
    · rename_i cart s2 heq
      obtain ⟨hs2, entry, hentry, hcart⟩ := svcGetCart_ok s now cartId cart s2 heq
      subst hs2
      have hci : CartInv cart := by
        rw [hcart]
        exact h cartId entry hentry
      split
      · exact ⟨h, fun c hc => by simp at hc⟩
      · rename_i idx hidx
        refine ⟨?_, ?_⟩
        · exact storeInv_mockUpdateCart _ _ _ h
            (cartInv_calculatePricing _ _ (cartInv_eraseIdx _ idx hci))
        · intro c hc
          rw [mockUpdateCart_ok_cart _ _ _ _ hc]
          exact cartInv_calculatePricing _ _ (cartInv_eraseIdx _ idx hci)
  · exact ⟨h, fun c hc => by simp at hc⟩

theorem updateItemQuantity_inv (cfg : ServiceConfig) (s : MockStore) (now : ℚ)
    (cartId itemId : String) (q : ℚ) (h : StoreInv s) :
    StoreInv (svcUpdateItemQuantity cfg s now cartId itemId q).2 ∧
    ∀ c, (svcUpdateItemQuantity cfg s now cartId itemId q).1 = .ok c → CartInv c := by
  unfold svcUpdateItemQuantity
  split
  · split
    · exact ⟨h, fun c hc => by simp at hc⟩
    · split
      · rename_i e s2 heq
        have h2 := congrArg Prod.snd heq
        dsimp only at h2
        refine ⟨?_, fun c hc => by simp at hc⟩
        rw [← h2]
        exact storeInv_svcGetCart s now cartId h
      · rename_i cart s2 heq
        obtain ⟨hs2, entry, hentry, hcart⟩ := svcGetCart_ok s now cartId cart s2 heq
        subst hs2
        have hci : CartInv cart := by
          rw [hcart]
          exact h cartId entry hentry
        split
        · exact ⟨h, fun c hc => by simp at hc⟩
        · refine ⟨?_, ?_⟩
          · exact storeInv_mockUpdateCart _ _ _ h
              (cartInv_calculatePricing _ _ (cartInv_setQtyItems _ itemId q hci))
          · intro c hc
            rw [mockUpdateCart_ok_cart _ _ _ _ hc]
            exact cartInv_calculatePricing _ _ (cartInv_setQtyItems _ itemId q hci)
  · exact ⟨h, fun c hc => by simp at hc⟩

theorem clearCart_inv (s : MockStore) (now : ℚ) (cartId : String) (h : StoreInv s) :
    StoreInv (svcClearCart s now cartId).2 ∧
    ∀ c, (svcClearCart s now cartId).1 = .ok c → CartInv c := by
  unfold svcClearCart
  split
  · split
    · rename_i e s2 heq
      have h2 := congrArg Prod.snd heq
      dsimp only at h2
      refine ⟨?_, fun c hc => by simp at hc⟩
      rw [← h2]
      exact storeInv_svcGetCart s now cartId h
    · rename_i cart s2 heq
      obtain ⟨hs2, entry, hentry, hcart⟩ := svcGetCart_ok s now cartId cart s2 heq
      subst hs2
      refine ⟨?_, ?_⟩
      · exact storeInv_mockUpdateCart _ _ _ h
          (cartInv_calculatePricing _ _ (cartInv_empty_items _ rfl))
      · intro c hc
        rw [mockUpdateCart_ok_cart _ _ _ _ hc]
        exact cartInv_calculatePricing _ _ (cartInv_empty_items _ rfl)
  · exact ⟨h, fun c hc => by simp at hc⟩

/-! ### Engine operation sequences (C7) -/

/-- An engine operation with its call-time parameters (current time and
generated UUIDs are data of the operation). -/
inductive EngineOp where
  | create (now : ℚ) (newId : String) (md : Option (List (String × String)))
  | add (now : ℚ) (freshItemId cartId : String) (req : AddItemRequest)
  | remove (now : ℚ) (cartId itemId : String)
  | setQty (now : ℚ) (cartId itemId : String) (q : ℚ)
  | clear (now : ℚ) (cartId : String)
  | getOp (now : ℚ) (cartId : String)
  | del (cartId : String)

/-- One engine call: the resulting store and the returned cart, if any. -/
def applyEngineOp (cfg : ServiceConfig) (s : MockStore) : EngineOp → MockStore × Option Cart
  | .create now newId md =>
    ((svcCreateCart cfg s now newId md).2, some (svcCreateCart cfg s now newId md).1)
  | .add now fid cartId req =>
    ((svcAddItem cfg s now fid cartId req).2, (svcAddItem cfg s now fid cartId req).1.toOption)
  | .remove now cartId itemId =>
    ((svcRemoveItem s now cartId itemId).2, (svcRemoveItem s now cartId itemId).1.toOption)
  | .setQty now cartId itemId q =>
    ((svcUpdateItemQuantity cfg s now cartId itemId q).2,
      (svcUpdateItemQuantity cfg s now cartId itemId q).1.toOption)
  | .clear now cartId =>
    ((svcClearCart s now cartId).2, (svcClearCart s now cartId).1.toOption)
  | .getOp now cartId =>
    ((svcGetCart s now cartId).2, (svcGetCart s now cartId).1.toOption)
  | .del cartId => ((svcDeleteCart s cartId).2, none)

/-- A sequence of engine calls: final store and every returned cart. -/
def runEngine (cfg : ServiceConfig) : List EngineOp → MockStore → MockStore × List Cart
  | [], s => (s, [])
  | op :: rest, s =>
    ((runEngine cfg rest (applyEngineOp cfg s op).1).1,
      (applyEngineOp cfg s op).2.toList ++ (runEngine cfg rest (applyEngineOp cfg s op).1).2)

theorem applyEngineOp_inv (cfg : ServiceConfig) (s : MockStore) (op : EngineOp)
    (h : StoreInv s) :
    StoreInv (applyEngineOp cfg s op).1 ∧
    ∀ c, (applyEngineOp cfg s op).2 = some c → CartInv c := by
  cases op with
  | create now newId md =>
    constructor
    · show StoreInv (svcCreateCart cfg s now newId md).2
      exact storeInv_set s newId _ _ h (cartInv_empty_items _ rfl)
    · intro c hc
      replace hc : some (svcCreateCart cfg s now newId md).1 = some c := hc
      injection hc with hc
      rw [← hc]
      exact cartInv_empty_items _ rfl
  | add now fid cartId req =>
    refine ⟨(addItem_inv cfg s now fid cartId req h).1, fun c hc => ?_⟩
    replace hc : (svcAddItem cfg s now fid cartId req).1.toOption = some c := hc
    exact (addItem_inv cfg s now fid cartId req h).2 c (toOption_eq_some _ _ hc)
  | remove now cartId itemId =>
    refine ⟨(removeItem_inv s now cartId itemId h).1, fun c hc => ?_⟩
    replace hc : (svcRemoveItem s now cartId itemId).1.toOption = some c := hc
    exact (removeItem_inv s now cartId itemId h).2 c (toOption_eq_some _ _ hc)
  | setQty now cartId itemId q =>
    refine ⟨(updateItemQuantity_inv cfg s now cartId itemId q h).1, fun c hc => ?_⟩
    replace hc : (svcUpdateItemQuantity cfg s now cartId itemId q).1.toOption = some c := hc
    exact (updateItemQuantity_inv cfg s now cartId itemId q h).2 c (toOption_eq_some _ _ hc)
  | clear now cartId =>
    refine ⟨(clearCart_inv s now cartId h).1, fun c hc => ?_⟩
    replace hc : (svcClearCart s now cartId).1.toOption = some c := hc
    exact (clearCart_inv s now cartId h).2 c (toOption_eq_some _ _ hc)
  | getOp now cartId =>
    refine ⟨storeInv_svcGetCart s now cartId h, fun c hc => ?_⟩
    replace hc : (svcGetCart s now cartId).1.toOption = some c := hc
    have hok := toOption_eq_some _ _ hc
    have heq : svcGetCart s now cartId = ((svcGetCart s now cartId).1, (svcGetCart s now cartId).2) := rfl
    rw [hok] at heq
    obtain ⟨hs2, entry, hentry, hcart⟩ := svcGetCart_ok s now cartId c _ heq
    rw [hcart]
    exact h cartId entry hentry
  | del cartId =>
    refine ⟨?_, fun c hc =>
      Option.noConfusion (show (none : Option Cart) = some c from hc)⟩
    show StoreInv (svcDeleteCart s cartId).2
    unfold svcDeleteCart
    split
    · exact storeInv_delete s cartId h
    · exact h

theorem runEngine_inv (cfg : ServiceConfig) (ops : List EngineOp) (s : MockStore)
    (h : StoreInv s) :
    StoreInv (runEngine cfg ops s).1 ∧ ∀ c ∈ (runEngine cfg ops s).2, CartInv c := by
  induction ops generalizing s with
  | nil => exact ⟨h, by intro c hc; simp [runEngine] at hc⟩
  | cons op rest ih =>
    obtain ⟨h1, h2⟩ := applyEngineOp_inv cfg s op h
    obtain ⟨h3, h4⟩ := ih (applyEngineOp cfg s op).1 h1
    refine ⟨h3, ?_⟩
    intro c hc
    replace hc : c ∈ (applyEngineOp cfg s op).2.toList ++
        (runEngine cfg rest (applyEngineOp cfg s op).1).2 := hc
    rcases List.mem_append.mp hc with hx | hx
    · cases hh : (applyEngineOp cfg s op).2 with
      | none =>
        rw [hh] at hx
        simp [Option.toList] at hx
      | some v =>
        rw [hh] at hx
        simp only [Option.toList, List.mem_singleton] at hx
        rw [hx]
        exact h2 v hh
    · exact h4 c hx

/-- C7: every cart reachable through the engine operations (createCart,
addItem, removeItem, updateItemQuantity, clearCart, getCart, deleteCart)
from an empty store — every cart held in the store and every cart returned
to a caller — has pairwise-distinct product ids across its items and every
item totalPrice equal to `round2(unitPrice * quantity)`. -/
theorem C7_engine_preserves_cart_invariants (cfg : ServiceConfig) (ttl : ℚ)
    (ops : List EngineOp) :
    StoreInv (runEngine cfg ops ⟨[], ttl⟩).1 ∧
    ∀ c ∈ (runEngine cfg ops ⟨[], ttl⟩).2, CartInv c :=
  runEngine_inv cfg ops ⟨[], ttl⟩ (fun id e he => by rw [mapGet_nil] at he; cases he)

/-- Witness for C7: a create followed by an add, from the empty store. -/
theorem C7_engine_preserves_cart_invariants_witness :
    StoreInv (runEngine defaultConfig
      [EngineOp.create 0 uuidA none, EngineOp.add 0 "i-1" uuidA ⟨exProduct, 2⟩]
      ⟨[], 5⟩).1 ∧
    ∀ c ∈ (runEngine defaultConfig
      [EngineOp.create 0 uuidA none, EngineOp.add 0 "i-1" uuidA ⟨exProduct, 2⟩]
      ⟨[], 5⟩).2, CartInv c :=
  C7_engine_preserves_cart_invariants defaultConfig 5
    [EngineOp.create 0 uuidA none, EngineOp.add 0 "i-1" uuidA ⟨exProduct, 2⟩]

/-! ### Reference-semantics model of the store copies (C9)

The TypeScript mock copies carts with the object spread `{ ...cart }`
(`createCart`, `getCart`, `updateCart`).  A spread copies the fields one
level deep: the `items` field holds a reference to an array object, and the
copy shares that same reference.  To settle claims about mutation
observability this model makes the reference explicit: a cart holds an
`itemsRef` into a heap of array objects. -/

namespace RefModel

/-- A `Cart` as a JavaScript object: scalar fields are values, `items` is a
reference (`itemsRef`) to an array object on the heap.  Pricing and
timestamp fields are carried unchanged. -/
structure CartR where
  cartId : String
  itemsRef : ℕ
  subtotal : ℚ
  tax : ℚ
  total : ℚ
  createdAt : ℚ
  updatedAt : ℚ
  expiresAt : ℚ
deriving DecidableEq, Repr

/-- `CartEntry` of the mock under reference semantics. -/
structure EntryR where
  cart : CartR
  createdAt : ℚ
deriving DecidableEq, Repr

/-- The mock store state together with the heap of items-array objects. -/
structure HeapStore where
  arrays : List (ℕ × List CartItem)
  carts : List (String × EntryR)
  ttlMinutes : ℚ
deriving DecidableEq, Repr

/-- Dereference an items-array reference. -/
def heapRead (h : List (ℕ × List CartItem)) (r : ℕ) : List CartItem :=
  ((h.find? (fun p => p.1 = r)).map Prod.snd).getD []

/-- Overwrite the array object behind a reference (what a caller mutating
the array it received, e.g. an `Array.prototype.push`, does). -/
def heapWrite (h : List (ℕ × List CartItem)) (r : ℕ) (l : List CartItem) :
    List (ℕ × List CartItem) :=
  match h with
  | [] => [(r, l)]
  | a :: t => if a.1 = r then (r, l) :: t else a :: heapWrite t r l

def entriesGet (m : List (String × EntryR)) (k : String) : Option EntryR :=
  (m.find? (fun p => p.1 = k)).map Prod.snd

def entriesDelete (m : List (String × EntryR)) (k : String) : List (String × EntryR) :=
  m.filter (fun p => ¬ p.1 = k)

/-- The object spread `{ ...cart }`: every field is copied; `itemsRef` is
copied as a reference — the array object itself is NOT cloned. -/
def shallowCopy (c : CartR) : CartR :=
  ⟨c.cartId, c.itemsRef, c.subtotal, c.tax, c.total, c.createdAt, c.updatedAt, c.expiresAt⟩

/-- `SalesforceCartClientMock.isExpired` (unchanged by reference
semantics). -/
def isExpiredR (ttlMinutes now : ℚ) (e : EntryR) : Bool :=
  now > e.createdAt + ttlMinutes * 60 * 1000

/-- `SalesforceCartClientMock.getCart` under reference semantics: on
success it returns `{ ...entry.cart }`, sharing the stored items array. -/
def getCartR (st : HeapStore) (now : ℚ) (cartId : String) :
    Except DomainError (Option CartR) × HeapStore :=
  match entriesGet st.carts cartId with
  | none => (.ok none, st)
  | some e =>
    if isExpiredR st.ttlMinutes now e then
      (.error (.cartExpired cartId), { st with carts := entriesDelete st.carts cartId })
    else
      (.ok (some (shallowCopy e.cart)), st)

/-- A caller mutating the items array of the cart it received, through the
shared reference.  No store call is involved. -/
def callerWriteItems (st : HeapStore) (r : ℕ) (l : List CartItem) : HeapStore :=
  { st with arrays := heapWrite st.arrays r l }

end RefModel

theorem heapRead_heapWrite_self (h : List (ℕ × List CartItem)) (r : ℕ)
    (l : List CartItem) :
    RefModel.heapRead (RefModel.heapWrite h r l) r = l := by
  induction h with
  | nil => simp [RefModel.heapWrite, RefModel.heapRead, List.find?_cons]
  | cons a t ih =>
    by_cases ha : a.1 = r
    · simp [RefModel.heapWrite, ha, RefModel.heapRead, List.find?_cons]
    · simpa [RefModel.heapWrite, ha, RefModel.heapRead, List.find?_cons] using ih

/-- Cart item used by the C9 counterexample (the caller's push). -/
def cexItem : CartItem :=
  { itemId := "i-9", product := exProduct, quantity := 1, unitPrice := 100,
    totalPrice := 100, addedAt := 0 }

/-- Stored cart of the C9 counterexample: its items array is object 0. -/
def cexCartR : RefModel.CartR :=
  { cartId := uuidA, itemsRef := 0, subtotal := 0, tax := 0, total := 0,
    createdAt := 0, updatedAt := 0, expiresAt := 300000 }

/-- Store of the C9 counterexample: one live cart whose items array (heap
object 0) is empty. -/
def cexStore : RefModel.HeapStore :=
  { arrays := [(0, [])], carts := [(uuidA, ⟨cexCartR, 0⟩)], ttlMinutes := 5 }

/-- C9 counterexample: the store `Get` does NOT return a deep value copy.
`getCart` returns `{ ...entry.cart }`, which shares the stored items-array
reference; a caller that pushes an item onto the returned cart items array
— with no intervening `Update` — makes the mutation observable in a later
`Get` of the same cart id: the dereferenced items change from `[]` to
`[cexItem]`. -/
theorem C9_deep_copy_counterexample :
    (RefModel.getCartR cexStore 0 uuidA).1 =
      .ok (some (RefModel.shallowCopy cexCartR)) ∧
    (RefModel.getCartR cexStore 0 uuidA).2 = cexStore ∧
    RefModel.heapRead cexStore.arrays (RefModel.shallowCopy cexCartR).itemsRef = [] ∧
    (RefModel.getCartR
        (RefModel.callerWriteItems cexStore
          (RefModel.shallowCopy cexCartR).itemsRef [cexItem]) 0 uuidA).1 =
      .ok (some (RefModel.shallowCopy cexCartR)) ∧
    RefModel.heapRead
      (RefModel.callerWriteItems cexStore
        (RefModel.shallowCopy cexCartR).itemsRef [cexItem]).arrays
      (RefModel.shallowCopy cexCartR).itemsRef = [cexItem] ∧
    [cexItem] ≠ ([] : List CartItem) := by
  have hlive : RefModel.isExpiredR 5 0 ⟨cexCartR, 0⟩ = false := by
    simp only [RefModel.isExpiredR, decide_eq_false_iff_not, not_lt]
    norm_num [cexCartR]
  refine ⟨?_, ?_, rfl, ?_, ?_, by simp⟩
  · simp [RefModel.getCartR, RefModel.entriesGet, cexStore, List.find?_cons, hlive]
  · simp [RefModel.getCartR, RefModel.entriesGet, cexStore, List.find?_cons, hlive]
  · simp [RefModel.getCartR, RefModel.entriesGet, RefModel.callerWriteItems, cexStore,
      List.find?_cons, hlive]
  · exact heapRead_heapWrite_self cexStore.arrays 0 [cexItem]

/-- C9 amended: the store `Get` returns a SHALLOW copy of the stored cart:
the record fields are copied (so reassigning fields of the returned object
is not observable in the store), but the items array is shared by
reference, so a caller mutation through the returned cart items array is
observable in a later `Get` of the same id even with no intervening
`Update`. -/
theorem C9_get_returns_shallow_copy (st : RefModel.HeapStore) (cartId : String)
    (e : RefModel.EntryR) (now : ℚ)
    (hget : RefModel.entriesGet st.carts cartId = some e)
    (hlive : RefModel.isExpiredR st.ttlMinutes now e = false) :
    (RefModel.getCartR st now cartId).1 = .ok (some (RefModel.shallowCopy e.cart)) ∧
    (RefModel.getCartR st now cartId).2 = st ∧
    (RefModel.shallowCopy e.cart).itemsRef = e.cart.itemsRef ∧
    ∀ l : List CartItem,
      RefModel.heapRead
        (RefModel.callerWriteItems st e.cart.itemsRef l).arrays e.cart.itemsRef = l ∧
      (RefModel.getCartR (RefModel.callerWriteItems st e.cart.itemsRef l) now cartId).1 =
        .ok (some (RefModel.shallowCopy e.cart)) := by
  refine ⟨?_, ?_, rfl, ?_⟩
  · simp [RefModel.getCartR, hget, hlive]
  · simp [RefModel.getCartR, hget, hlive]
  · intro l
    refine ⟨heapRead_heapWrite_self st.arrays e.cart.itemsRef l, ?_⟩
    have hget2 : RefModel.entriesGet
        (RefModel.callerWriteItems st e.cart.itemsRef l).carts cartId = some e := hget
    have hlive2 : RefModel.isExpiredR
        (RefModel.callerWriteItems st e.cart.itemsRef l).ttlMinutes now e = false := hlive
    simp [RefModel.getCartR, hget2, hlive2]

/-- Witness for the amended C9 on the counterexample store. -/
theorem C9_get_returns_shallow_copy_witness :
    (RefModel.getCartR cexStore 0 uuidA).1 =
      .ok (some (RefModel.shallowCopy (⟨cexCartR, 0⟩ : RefModel.EntryR).cart)) ∧
    (RefModel.getCartR cexStore 0 uuidA).2 = cexStore ∧
    (RefModel.shallowCopy (⟨cexCartR, 0⟩ : RefModel.EntryR).cart).itemsRef =
      (⟨cexCartR, 0⟩ : RefModel.EntryR).cart.itemsRef ∧
    ∀ l : List CartItem,
      RefModel.heapRead
        (RefModel.callerWriteItems cexStore
          (⟨cexCartR, 0⟩ : RefModel.EntryR).cart.itemsRef l).arrays
        (⟨cexCartR, 0⟩ : RefModel.EntryR).cart.itemsRef = l ∧
      (RefModel.getCartR
          (RefModel.callerWriteItems cexStore
            (⟨cexCartR, 0⟩ : RefModel.EntryR).cart.itemsRef l) 0 uuidA).1 =
        .ok (some (RefModel.shallowCopy (⟨cexCartR, 0⟩ : RefModel.EntryR).cart)) :=
  C9_get_returns_shallow_copy cexStore uuidA ⟨cexCartR, 0⟩ 0 rfl
    (by simp only [RefModel.isExpiredR, cexStore, decide_eq_false_iff_not, not_lt]
        norm_num)

end TelecomCart
